import Mathlib

/-!
Verification model of the task CRUD service (`index.js` + `swagger.js`).

The service is an Express application over a single SQLite table:

  CREATE TABLE IF NOT EXISTS tasks (
    id INTEGER PRIMARY KEY AUTOINCREMENT,
    title TEXT NOT NULL,
    description TEXT,
    completed BOOLEAN DEFAULT 0
  )

We embed:
  * the JavaScript values that can appear as request-body fields (`JsVal`),
  * the SQLite storage values (`SqlVal`) together with the node-sqlite3
    parameter binding (`bindVal`: strings bind as TEXT, booleans as the
    integers 0/1, `undefined`/`null` bind as SQL NULL),
  * the database state (`Db`: the rows of the `tasks` table plus the
    AUTOINCREMENT sequence counter),
  * the SQL statements issued by the handlers (`dbAll`, `dbGet`,
    `dbRunInsert`, `dbRunUpdate`, `dbRunDelete`), with the `NOT NULL`
    constraint on `title` enforced exactly where SQLite enforces it
    (on an INSERT, and on an UPDATE that actually touches a row), and
  * the five route handlers, each producing the next database state and a
    response value mirroring the exact JSON bodies and status codes of the
    route code.

The `id` path parameter arrives as a string; the INTEGER affinity of the
`id` column makes SQLite apply numeric affinity to the text operand of
`WHERE id = ?` before comparing. `parseNumeric` models the conversion with
SQLite's numeric-literal grammar (optional surrounding ASCII whitespace,
optional sign, decimal digits with optional fraction and optional signed
exponent; at least one significand digit; nothing else), producing the
literal's exact value as a pair `(m, e)` denoting `m * 10^e`; a text that
is not a complete numeric literal stays TEXT and matches no integer id.
A row matches iff the converted value equals the row's id exactly
(`rowMatches`), mirroring SQLite's exact cross-type INTEGER/REAL
comparison. Values are exact (mathematical) integers and decimal
fractions here: the finite-precision rounding sqlite3AtoF applies to
literals that exceed the significand of a C double (17 or more
significant digits, or an int64 overflow), being floating-point and
platform-dependent (long-double availability), is outside this embedding.
-/

/-- A JavaScript value as it can appear in a destructured request-body
field: absent (`undefined`), `null`, a string (form-data fields), a boolean
or a number (JSON bodies). -/
inductive JsVal where
  | undef
  | null
  | str (s : String)
  | bool (b : Bool)
  | num (n : Int)
deriving DecidableEq, Repr

/-- A value stored in an SQLite column: NULL, INTEGER or TEXT (the only
storage classes this service ever produces). -/
inductive SqlVal where
  | null
  | int (i : Int)
  | text (s : String)
deriving DecidableEq, Repr

/-- node-sqlite3 parameter binding: `undefined` and `null` bind as SQL
NULL, strings as TEXT, booleans as the integers 1/0, numbers as INTEGER. -/
def bindVal : JsVal → SqlVal
  | .undef => .null
  | .null => .null
  | .str s => .text s
  | .bool b => .int (if b then 1 else 0)
  | .num n => .int n

/-- Whether a storage value is SQL NULL. -/
def SqlVal.isNull : SqlVal → Bool
  | .null => true
  | _ => false

/-- A row of the `tasks` table. -/
structure Row where
  id : Nat
  title : SqlVal
  description : SqlVal
  completed : SqlVal
deriving DecidableEq, Repr

/-- The database state: the rows of the `tasks` table in storage (rowid)
order, and the AUTOINCREMENT sequence counter for the table (the largest
id ever assigned; 0 when no row was ever inserted). -/
structure Db where
  rows : List Row
  seq : Nat
deriving DecidableEq, Repr

/-- The six ASCII characters SQLite's `isspace` class accepts around a
numeric literal. -/
def isSqlSpace (c : Char) : Bool :=
  c == ' ' || c == '\t' || c == '\n' || c == '\x0b' || c == '\x0c' || c == '\r'

/-- Drop a leading run of SQL whitespace. -/
def dropSpaces : List Char → List Char
  | [] => []
  | c :: cs => if isSqlSpace c then dropSpaces cs else c :: cs

/-- Accumulate a leading run of decimal digits: digit count, value, rest. -/
def takeDigitsAux : List Char → Nat → Nat → Nat × Nat × List Char
  | [], cnt, acc => (cnt, acc, [])
  | c :: cs, cnt, acc =>
    if c.isDigit then takeDigitsAux cs (cnt + 1) (acc * 10 + (c.toNat - 48))
    else (cnt, acc, c :: cs)

/-- Split a leading run of decimal digits off a character list. -/
def takeDigits (cs : List Char) : Nat × Nat × List Char := takeDigitsAux cs 0 0

/-- `10 ^ n`, kept as a first-order recursion. -/
def pow10 : Nat → Nat
  | 0 => 1
  | n + 1 => 10 * pow10 n

/-- The exponent tail of a numeric literal, after the `e`/`E`: an optional
sign and at least one digit, then only trailing whitespace. -/
def parseExponent (cs : List Char) : Option Int :=
  let se : Int × List Char :=
    match cs with
    | '+' :: rest => (1, rest)
    | '-' :: rest => (-1, rest)
    | _ => (1, cs)
  let ep := takeDigits se.2
  if ep.1 == 0 then none
  else if (dropSpaces ep.2.2).isEmpty then some (se.1 * (ep.2.1 : Int))
  else none

/-- SQLite's text-to-numeric affinity conversion, as the exact value of
the literal: optional leading whitespace, optional sign, digits with an
optional fraction (at least one significand digit in total), an optional
`e`/`E` exponent with optional sign and at least one digit, optional
trailing whitespace, and nothing else. The result `(m, e)` denotes the
exact value `m * 10^e`; a string that is not a complete literal converts
to nothing (it stays TEXT). -/
def parseNumeric (s : String) : Option (Int × Int) :=
  let cs0 := dropSpaces s.data
  let sp : Int × List Char :=
    match cs0 with
    | '+' :: rest => (1, rest)
    | '-' :: rest => (-1, rest)
    | _ => (1, cs0)
  let ip := takeDigits sp.2
  let fp : Nat × Nat × List Char :=
    match ip.2.2 with
    | '.' :: rest => takeDigits rest
    | _ => (0, 0, ip.2.2)
  if ip.1 + fp.1 == 0 then none
  else
    let m : Int := sp.1 * ((ip.2.1 * pow10 fp.1 + fp.2.1 : Nat) : Int)
    match fp.2.2 with
    | 'e' :: rest =>
      match parseExponent rest with
      | some ex => some (m, ex - (fp.1 : Int))
      | none => none
    | 'E' :: rest =>
      match parseExponent rest with
      | some ex => some (m, ex - (fp.1 : Int))
      | none => none
    | rest =>
      if (dropSpaces rest).isEmpty then some (m, -(fp.1 : Int)) else none

/-- Whether the exact value `m * 10^e` equals the natural number `n` -
SQLite's exact comparison of a converted numeric against an integer id. -/
def numEqNat (m e : Int) (n : Nat) : Bool :=
  if 0 ≤ e then m * (pow10 e.toNat : Int) == (n : Int)
  else m == (n : Int) * (pow10 (-e).toNat : Int)

/-- Whether the path parameter string denotes exactly the integer `n`:
it converts under numeric affinity and its exact value is `n`. -/
def denotesNat (s : String) (n : Nat) : Bool :=
  match parseNumeric s with
  | some me => numEqNat me.1 me.2 n
  | none => false

/-- Whether a row is selected by `WHERE id = ?` with the given (string)
path parameter. -/
def rowMatches (idStr : String) (r : Row) : Bool :=
  denotesNat idStr r.id

/-- The error message SQLite reports when the `NOT NULL` constraint on
`tasks.title` fails. -/
def notNullTitleMsg : String :=
  "SQLITE_CONSTRAINT: NOT NULL constraint failed: tasks.title"

/-- `db.all('SELECT * FROM tasks', [])`: every row, in storage order. -/
def dbAll (db : Db) : List Row := db.rows

/-- `db.get('SELECT * FROM tasks WHERE id = ?', [id])`: the first matching
row, if any. -/
def dbGet (db : Db) (idStr : String) : Option Row :=
  db.rows.find? (rowMatches idStr)

/-- `db.run('INSERT INTO tasks (title, description, completed) VALUES (?, ?, ?)', params)`:
fails on a NULL `title` (the schema's NOT NULL constraint); otherwise
appends a row carrying the next AUTOINCREMENT id and returns that id as
`this.lastID`. -/
def dbRunInsert (db : Db) (title description completed : SqlVal) :
    Except String (Db × Nat) :=
  if title.isNull then
    .error notNullTitleMsg
  else
    let newId := db.seq + 1
    .ok (⟨db.rows ++ [⟨newId, title, description, completed⟩], newId⟩, newId)

/-- Overwrite the three mutable columns of a row (`SET title = ?,
description = ?, completed = ?`). -/
def setRow (title description completed : SqlVal) (r : Row) : Row :=
  { r with title := title, description := description, completed := completed }

/-- `db.run('UPDATE tasks SET title = ?, description = ?, completed = ? WHERE id = ?', params)`:
the NOT NULL constraint on `title` fires exactly when the statement
actually updates a row with a NULL title (when no row matches, the
statement succeeds with `this.changes = 0`); on success every matching
row is overwritten and `this.changes` counts the matching rows. -/
def dbRunUpdate (db : Db) (title description completed : SqlVal)
    (idStr : String) : Except String (Db × Nat) :=
  let changes := db.rows.countP (rowMatches idStr)
  if title.isNull && changes != 0 then
    .error notNullTitleMsg
  else
    .ok (⟨db.rows.map fun r =>
            if rowMatches idStr r then setRow title description completed r else r,
          db.seq⟩,
         changes)

/-- `db.run('DELETE FROM tasks WHERE id = ?', id)`: removes every matching
row; `this.changes` counts the removed rows. The AUTOINCREMENT sequence is
untouched by a DELETE. -/
def dbRunDelete (db : Db) (idStr : String) : Db × Nat :=
  (⟨db.rows.filter (fun r => !rowMatches idStr r), db.seq⟩,
   db.rows.countP (rowMatches idStr))

/-- The request body of `POST /tasks` as the handler sees it: the handler
destructures only `title` and `description`; a `completed` field may be
present but is never read. -/
structure CreateBody where
  title : JsVal
  description : JsVal
  completed : JsVal
deriving DecidableEq, Repr

/-- The request body of `PUT /tasks/:id`: `title`, `description`,
`completed` (each `undefined` when the caller omits it). -/
structure UpdateBody where
  title : JsVal
  description : JsVal
  completed : JsVal
deriving DecidableEq, Repr

/-- Response of `GET /tasks`. -/
inductive ListRes where
  | ok (rows : List Row)
  | storageError (error : String)
deriving DecidableEq, Repr

/-- HTTP status of a `GET /tasks` response. -/
def ListRes.status : ListRes → Nat
  | .ok _ => 200
  | .storageError _ => 500

/-- The JSON body `{id, title, description, completed}` echoed by
`POST /tasks`: the new id plus the submitted field values, with the
literal `completed: false`. -/
structure CreatedJson where
  id : Nat
  title : JsVal
  description : JsVal
  completed : Bool
deriving DecidableEq, Repr

/-- Response of `POST /tasks`. -/
inductive CreateRes where
  | ok (body : CreatedJson)
  | storageError (error : String)
deriving DecidableEq, Repr

/-- HTTP status of a `POST /tasks` response. -/
def CreateRes.status : CreateRes → Nat
  | .ok _ => 200
  | .storageError _ => 500

/-- Response of `GET /tasks/:id`. -/
inductive GetRes where
  | ok (row : Row)
  | notFound (message : String)
  | storageError (error : String)
deriving DecidableEq, Repr

/-- HTTP status of a `GET /tasks/:id` response. -/
def GetRes.status : GetRes → Nat
  | .ok _ => 200
  | .notFound _ => 404
  | .storageError _ => 500

/-- The JSON body `{id, title, description, completed}` echoed by
`PUT /tasks/:id`: the path id (still a string) plus the submitted field
values, not re-read from storage. -/
structure UpdatedJson where
  id : String
  title : JsVal
  description : JsVal
  completed : JsVal
deriving DecidableEq, Repr

/-- Response of `PUT /tasks/:id`. -/
inductive UpdateRes where
  | ok (body : UpdatedJson)
  | notFound (message : String)
  | storageError (error : String)
deriving DecidableEq, Repr

/-- HTTP status of a `PUT /tasks/:id` response. -/
def UpdateRes.status : UpdateRes → Nat
  | .ok _ => 200
  | .notFound _ => 404
  | .storageError _ => 500

/-- Response of `DELETE /tasks/:id`. -/
inductive DeleteRes where
  | ok (message : String)
  | notFound (message : String)
  | storageError (error : String)
deriving DecidableEq, Repr

/-- HTTP status of a `DELETE /tasks/:id` response. -/
def DeleteRes.status : DeleteRes → Nat
  | .ok _ => 200
  | .notFound _ => 404
  | .storageError _ => 500

/-- The callback of `GET /tasks`: `(err, rows) => err ? 500 {error} : rows`. -/
def listCallback : Except String (List Row) → ListRes
  | .error e => .storageError e
  | .ok rows => .ok rows

/-- Handler of `GET /tasks`: a SELECT has no failure condition in this
model, so the callback always receives the rows; the database is not
mutated. -/
def getTasks (db : Db) : Db × ListRes :=
  (db, listCallback (.ok (dbAll db)))

/-- Handler of `POST /tasks`: destructures `title` and `description` from
the body (never `completed`), inserts `(title, description, false)`, and on
success echoes `{id: this.lastID, title, description, completed: false}`
without re-reading from storage. -/
def postTasks (db : Db) (body : CreateBody) : Db × CreateRes :=
  match dbRunInsert db (bindVal body.title) (bindVal body.description)
      (bindVal (.bool false)) with
  | .error e => (db, .storageError e)
  | .ok (db', lastID) => (db', .ok ⟨lastID, body.title, body.description, false⟩)

/-- Handler of `GET /tasks/:id`: 404 `{message: 'Tarea no encontrada'}`
when no row matches, otherwise the row. -/
def getTaskById (db : Db) (idStr : String) : Db × GetRes :=
  (db,
   match dbGet db idStr with
   | none => .notFound "Tarea no encontrada"
   | some row => .ok row)

/-- Handler of `PUT /tasks/:id`: runs the full-replace UPDATE; 500 on a
storage error, 404 when `this.changes === 0`, otherwise echoes
`{id, title, description, completed}` (the path id and the submitted
values, not re-read from storage). -/
def putTask (db : Db) (idStr : String) (body : UpdateBody) : Db × UpdateRes :=
  match dbRunUpdate db (bindVal body.title) (bindVal body.description)
      (bindVal body.completed) idStr with
  | .error e => (db, .storageError e)
  | .ok (db', changes) =>
    if changes == 0 then (db', .notFound "Tarea no encontrada")
    else (db', .ok ⟨idStr, body.title, body.description, body.completed⟩)

/-- Handler of `DELETE /tasks/:id`: 404 when `this.changes === 0`,
otherwise `{message: 'Tarea eliminada correctamente'}`. -/
def deleteTaskById (db : Db) (idStr : String) : Db × DeleteRes :=
  let res := dbRunDelete db idStr
  if res.2 == 0 then (res.1, .notFound "Tarea no encontrada")
  else (res.1, .ok "Tarea eliminada correctamente")

example :
    (postTasks ⟨[], 0⟩ ⟨.str "Buy milk", .undef, .undef⟩).2 =
      .ok ⟨1, .str "Buy milk", .undef, false⟩ := by decide

example :
    (postTasks ⟨[], 0⟩ ⟨.str "Buy milk", .undef, .undef⟩).1.rows =
      [⟨1, .text "Buy milk", .null, .int 0⟩] := by decide

example :
    (getTaskById ⟨[⟨1, .text "a", .null, .int 0⟩], 1⟩ "1").2 =
      .ok ⟨1, .text "a", .null, .int 0⟩ := by decide

example :
    (getTaskById ⟨[⟨1, .text "a", .null, .int 0⟩], 1⟩ "2").2 =
      .notFound "Tarea no encontrada" := by decide

example :
    (putTask ⟨[⟨1, .text "a", .null, .int 0⟩], 1⟩ "1"
        ⟨.undef, .str "d", .bool true⟩).2 =
      .storageError notNullTitleMsg := by decide

example :
    (deleteTaskById ⟨[⟨1, .text "a", .null, .int 0⟩], 1⟩ "1").2 =
      .ok "Tarea eliminada correctamente" := by decide

example : rowMatches "1" ⟨1, .text "a", .null, .int 0⟩ = true := by decide

example : rowMatches "+1" ⟨1, .text "a", .null, .int 0⟩ = true := by decide

example : rowMatches " 1" ⟨1, .text "a", .null, .int 0⟩ = true := by decide

example : rowMatches "1 " ⟨1, .text "a", .null, .int 0⟩ = true := by decide

example : rowMatches "1.0" ⟨1, .text "a", .null, .int 0⟩ = true := by decide

example : rowMatches "1e0" ⟨1, .text "a", .null, .int 0⟩ = true := by decide

example : rowMatches "0.1e1" ⟨1, .text "a", .null, .int 0⟩ = true := by decide

example : rowMatches "10e-1" ⟨1, .text "a", .null, .int 0⟩ = true := by decide

example : rowMatches "1.5" ⟨1, .text "a", .null, .int 0⟩ = false := by decide

example : rowMatches "2" ⟨1, .text "a", .null, .int 0⟩ = false := by decide

example : rowMatches "abc" ⟨1, .text "a", .null, .int 0⟩ = false := by decide

example : rowMatches "1x" ⟨1, .text "a", .null, .int 0⟩ = false := by decide

example : rowMatches "" ⟨1, .text "a", .null, .int 0⟩ = false := by decide

example :
    (getTaskById ⟨[⟨1, .text "a", .null, .int 0⟩], 1⟩ "1.0").2 =
      .ok ⟨1, .text "a", .null, .int 0⟩ := by decide

example :
    (putTask ⟨[⟨1, .text "a", .null, .int 0⟩], 1⟩ "+1"
        ⟨.str "b", .undef, .undef⟩).2 =
      .ok ⟨"+1", .str "b", .undef, .undef⟩ := by decide

/-! ### Basic lemmas about the update map -/

theorem pow10_pos (n : Nat) : 0 < pow10 n := by
  induction n with
  | zero => decide
  | succ n ih =>
    simp only [pow10]
    omega

theorem numEqNat_unique {m e : Int} {a b : Nat}
    (ha : numEqNat m e a = true) (hb : numEqNat m e b = true) : a = b := by
  unfold numEqNat at ha hb
  by_cases h : 0 ≤ e
  · rw [if_pos h] at ha hb
    have ha' := eq_of_beq ha
    have hb' := eq_of_beq hb
    rw [ha'] at hb'
    exact_mod_cast hb'
  · rw [if_neg h] at ha hb
    have ha' := eq_of_beq ha
    have hb' := eq_of_beq hb
    have hab : (a : Int) * (pow10 (-e).toNat : Int) =
        (b : Int) * (pow10 (-e).toNat : Int) := by
      rw [← ha', ← hb']
    have hpow : ((pow10 (-e).toNat : Nat) : Int) ≠ 0 := by
      have := pow10_pos (-e).toNat
      exact_mod_cast Nat.pos_iff_ne_zero.mp this
    have := mul_right_cancel₀ hpow hab
    exact_mod_cast this

theorem denotesNat_unique {s : String} {a b : Nat}
    (ha : denotesNat s a = true) (hb : denotesNat s b = true) : a = b := by
  unfold denotesNat at ha hb
  cases hp : parseNumeric s with
  | none =>
    rw [hp] at ha
    exact absurd ha (by simp)
  | some me =>
    rw [hp] at ha hb
    exact numEqNat_unique ha hb

theorem setRow_id (t d c : SqlVal) (r : Row) : (setRow t d c r).id = r.id := rfl

theorem rowMatches_setRow (i : String) (t d c : SqlVal) (r : Row) :
    rowMatches i (setRow t d c r) = rowMatches i r := rfl

theorem find_append_of_forall_false {α : Type} (p : α → Bool) (l₁ l₂ : List α)
    (h : ∀ a ∈ l₁, p a = false) : (l₁ ++ l₂).find? p = l₂.find? p := by
  induction l₁ with
  | nil => rfl
  | cons a l ih =>
    have ha : p a = false := h a (List.mem_cons_self a l)
    rw [List.cons_append, List.find?_cons, ha]
    exact ih fun x hx => h x (List.mem_cons_of_mem a hx)

theorem update_map_fields {i : String} {t d c : SqlVal} {rs : List Row} {r : Row}
    (hr : r ∈ rs.map fun x => if rowMatches i x then setRow t d c x else x)
    (hm : rowMatches i r = true) :
    r.title = t ∧ r.description = d ∧ r.completed = c := by
  rcases List.mem_map.mp hr with ⟨x, hx, rfl⟩
  by_cases h : rowMatches i x = true
  · simp [h, setRow]
  · rw [if_neg h] at hm
    exact absurd hm h

theorem update_map_ids (i : String) (t d c : SqlVal) (rs : List Row) :
    (rs.map fun x => if rowMatches i x then setRow t d c x else x).map Row.id =
      rs.map Row.id := by
  induction rs with
  | nil => rfl
  | cons a l ih =>
    by_cases h : rowMatches i a = true
    · simp only [List.map_cons, if_pos h, setRow_id, ih]
    · simp only [List.map_cons, if_neg h, ih]

theorem putTask_fst (db : Db) (idStr : String) (b : UpdateBody) :
    (putTask db idStr b).1 =
      if (bindVal b.title).isNull && (db.rows.countP (rowMatches idStr) != 0)
      then db
      else ⟨db.rows.map fun r =>
              if rowMatches idStr r then
                setRow (bindVal b.title) (bindVal b.description)
                  (bindVal b.completed) r
              else r,
            db.seq⟩ := by
  unfold putTask dbRunUpdate
  by_cases hc : ((bindVal b.title).isNull && (db.rows.countP (rowMatches idStr) != 0)) = true
  · simp [hc]
  · simp only [Bool.not_eq_true] at hc
    simp [hc]
    split <;> rfl

theorem putTask_snd_ok (db : Db) (idStr : String) (b : UpdateBody)
    (ht : (bindVal b.title).isNull = false)
    (hm : db.rows.countP (rowMatches idStr) ≠ 0) :
    (putTask db idStr b).2 =
      .ok ⟨idStr, b.title, b.description, b.completed⟩ := by
  unfold putTask dbRunUpdate
  simp [ht, hm]

theorem putTask_storage_error (db : Db) (idStr : String) (b : UpdateBody)
    (ht : (bindVal b.title).isNull = true)
    (hm : db.rows.countP (rowMatches idStr) ≠ 0) :
    putTask db idStr b = (db, .storageError notNullTitleMsg) := by
  unfold putTask dbRunUpdate
  simp [ht, hm]

/-! ### Claim theorems -/

/-- Claim C9: the list operation takes no input, returns all persisted
tasks in storage order without mutating the store, and the handler's error
branch turns a storage error into a 500 response that carries the
underlying message and no rows. -/
theorem list_returns_all_rows (db : Db) (e : String) :
    getTasks db = (db, ListRes.ok (dbAll db)) ∧
    (getTasks db).2.status = 200 ∧
    listCallback (Except.error e) = ListRes.storageError e ∧
    (ListRes.storageError e).status = 500 :=
  ⟨rfl, rfl, rfl, rfl⟩

/-- Claim C2: a create never reads `completed` from the request body (the
response is identical whatever that field holds), the persisted row has
`completed` initialized to SQLite false (the integer 0), and the response
is exactly the new id plus the submitted `title`/`description` values
echoed back verbatim with the literal `completed: false`, not re-read from
storage. Stated for any body whose `title` binds to a non-NULL value, so
that the INSERT succeeds. -/
theorem create_initializes_completed_false (db : Db) (b : CreateBody)
    (ht : (bindVal b.title).isNull = false) :
    (postTasks db b).2 =
      CreateRes.ok ⟨db.seq + 1, b.title, b.description, false⟩ ∧
    (postTasks db b).1.rows.getLast? =
      some ⟨db.seq + 1, bindVal b.title, bindVal b.description, SqlVal.int 0⟩ ∧
    (∀ c : JsVal, postTasks db { b with completed := c } = postTasks db b) := by
  have hb : bindVal (JsVal.bool false) = SqlVal.int 0 := rfl
  refine ⟨?_, ?_, fun c => rfl⟩
  · unfold postTasks dbRunInsert
    simp [ht]
  · unfold postTasks dbRunInsert
    simp [ht, hb, List.getLast?_concat]

theorem create_initializes_completed_false_witness :
    (bindVal (JsVal.str "Buy milk")).isNull = false ∧
    (postTasks ⟨[], 0⟩ ⟨JsVal.str "Buy milk", JsVal.undef, JsVal.bool true⟩).2 =
      CreateRes.ok ⟨1, JsVal.str "Buy milk", JsVal.undef, false⟩ :=
  ⟨by decide,
   (create_initializes_completed_false ⟨[], 0⟩
     ⟨.str "Buy milk", .undef, .bool true⟩ (by decide)).1⟩

/-- Claim C4 counterexample: a create request omitting `title` does not
succeed with a persisted null-titled task; nothing is persisted and the
response is the NOT NULL constraint storage error with status 500. -/
theorem create_missing_title_counterexample :
    (postTasks ⟨[], 0⟩ ⟨JsVal.undef, JsVal.str "d", JsVal.undef⟩).1.rows = [] ∧
    (postTasks ⟨[], 0⟩ ⟨JsVal.undef, JsVal.str "d", JsVal.undef⟩).2 =
      CreateRes.storageError notNullTitleMsg ∧
    (postTasks ⟨[], 0⟩ ⟨JsVal.undef, JsVal.str "d", JsVal.undef⟩).2.status = 500 := by
  decide

/-- Claim C4 (amended): a create omitting `title` hits no service-level
validation path - the null is passed straight to the INSERT - but the
schema's NOT NULL constraint rejects it, so the create fails with the
storage-error (500) response and nothing is persisted. -/
theorem create_missing_title_storage_error (db : Db) (d c : JsVal) :
    postTasks db ⟨JsVal.undef, d, c⟩ = (db, .storageError notNullTitleMsg) ∧
    (postTasks db ⟨JsVal.undef, d, c⟩).2.status = 500 :=
  ⟨rfl, rfl⟩

/-- Claim C1: creating a task with a given title and description (strings,
as form-data fields arrive) and then reading it back by the returned id
yields that task: title and description stored as submitted (as TEXT) and
`completed` stored as the SQLite false value 0. `idStr` is any path
parameter that denotes the returned id under numeric affinity (its decimal
representation, but also forms like a leading `+` or a `.0` suffix); the
freshness hypothesis states that every persisted id is at most the
sequence counter, which holds for every store this service ever builds. -/
theorem create_then_read_roundtrip (db : Db) (t d : String) (c : JsVal)
    (idStr : String) (hwf : ∀ r ∈ db.rows, r.id ≤ db.seq)
    (hid : denotesNat idStr (db.seq + 1) = true) :
    (postTasks db ⟨JsVal.str t, JsVal.str d, c⟩).2 =
      CreateRes.ok ⟨db.seq + 1, JsVal.str t, JsVal.str d, false⟩ ∧
    (getTaskById (postTasks db ⟨JsVal.str t, JsVal.str d, c⟩).1 idStr).2 =
      GetRes.ok ⟨db.seq + 1, SqlVal.text t, SqlVal.text d, SqlVal.int 0⟩ := by
  constructor
  · rfl
  · have hall : ∀ r ∈ db.rows, rowMatches idStr r = false := by
      intro r hr
      cases hm : rowMatches idStr r with
      | false => rfl
      | true =>
        have heq : r.id = db.seq + 1 := denotesNat_unique hm hid
        have hle := hwf r hr
        omega
    have hrow : rowMatches idStr
        (⟨db.seq + 1, SqlVal.text t, SqlVal.text d, SqlVal.int 0⟩ : Row) = true := hid
    have hfind : dbGet (postTasks db ⟨JsVal.str t, JsVal.str d, c⟩).1 idStr =
        some ⟨db.seq + 1, SqlVal.text t, SqlVal.text d, SqlVal.int 0⟩ := by
      show (db.rows ++ [⟨db.seq + 1, SqlVal.text t, SqlVal.text d, SqlVal.int 0⟩]
          : List Row).find? (rowMatches idStr) = _
      rw [find_append_of_forall_false _ _ _ hall, List.find?_cons, hrow]
    simp [getTaskById, hfind]

theorem create_then_read_roundtrip_witness :
    denotesNat "1" 1 = true ∧
    (getTaskById (postTasks ⟨[], 0⟩
        ⟨JsVal.str "a", JsVal.str "b", JsVal.undef⟩).1 "1").2 =
      GetRes.ok ⟨1, SqlVal.text "a", SqlVal.text "b", SqlVal.int 0⟩ :=
  ⟨by decide,
   (create_then_read_roundtrip ⟨[], 0⟩ "a" "b" JsVal.undef "1"
     (by decide) (by decide)).2⟩

/-- Claim C3 counterexample: on the store holding task 1 with title "old",
an update of id 1 that omits `title` (submitting only a description and a
completed flag) does not overwrite the stored title with null: the UPDATE
is rejected by the NOT NULL constraint, the store is unchanged, and the
response is the 500 storage error instead of the echoed task. -/
theorem update_omitted_title_counterexample :
    putTask ⟨[⟨1, SqlVal.text "old", SqlVal.null, SqlVal.int 0⟩], 1⟩ "1"
        ⟨JsVal.undef, JsVal.str "d", JsVal.bool true⟩ =
      (⟨[⟨1, SqlVal.text "old", SqlVal.null, SqlVal.int 0⟩], 1⟩,
       UpdateRes.storageError notNullTitleMsg) ∧
    (putTask ⟨[⟨1, SqlVal.text "old", SqlVal.null, SqlVal.int 0⟩], 1⟩ "1"
        ⟨JsVal.undef, JsVal.str "d", JsVal.bool true⟩).1.rows ≠
      [⟨1, SqlVal.null, SqlVal.text "d", SqlVal.int 1⟩] := by
  decide

/-- Claim C3 (amended): an update of an existing id has full-replace
semantics: whenever the submitted `title` binds to a non-NULL value the
update succeeds, echoes the submitted fields with the path id, and every
matching row's title, description and completed are overwritten
unconditionally with the bound submitted values - so an omitted
`description` or `completed` overwrites the stored value with NULL; an
update omitting `title`, however, is rejected by the schema's NOT NULL
constraint with the 500 storage error and leaves the store unchanged. -/
theorem update_full_replace (db : Db) (idStr : String) (b : UpdateBody)
    (hex : ∃ r ∈ db.rows, rowMatches idStr r = true) :
    ((bindVal b.title).isNull = false →
      (putTask db idStr b).2 =
        UpdateRes.ok ⟨idStr, b.title, b.description, b.completed⟩ ∧
      ∀ r ∈ (putTask db idStr b).1.rows, rowMatches idStr r = true →
        r.title = bindVal b.title ∧ r.description = bindVal b.description ∧
        r.completed = bindVal b.completed) ∧
    ((bindVal b.title).isNull = true →
      putTask db idStr b = (db, UpdateRes.storageError notNullTitleMsg)) := by
  have hpos : 0 < db.rows.countP (rowMatches idStr) :=
    List.countP_pos_iff.mpr hex
  have hcp : db.rows.countP (rowMatches idStr) ≠ 0 := by omega
  constructor
  · intro ht
    refine ⟨putTask_snd_ok db idStr b ht hcp, ?_⟩
    intro r hr hm
    rw [putTask_fst, ht] at hr
    simp only [Bool.false_and, Bool.false_eq_true, if_false] at hr
    exact update_map_fields hr hm
  · intro ht
    exact putTask_storage_error db idStr b ht hcp

theorem update_full_replace_witness :
    (∃ r ∈ (⟨[⟨1, SqlVal.text "o", SqlVal.null, SqlVal.int 0⟩], 1⟩ : Db).rows,
        rowMatches "1" r = true) ∧
    (putTask ⟨[⟨1, SqlVal.text "o", SqlVal.null, SqlVal.int 0⟩], 1⟩ "1"
        ⟨JsVal.str "t", JsVal.undef, JsVal.undef⟩).2 =
      UpdateRes.ok ⟨"1", JsVal.str "t", JsVal.undef, JsVal.undef⟩ :=
  ⟨by decide,
   ((update_full_replace ⟨[⟨1, SqlVal.text "o", SqlVal.null, SqlVal.int 0⟩], 1⟩
       "1" ⟨.str "t", .undef, .undef⟩ (by decide)).1 (by decide)).1⟩

/-- Claim C6: deleting an existing id responds 200 with the confirmation
message 'Tarea eliminada correctamente'; afterwards reading that id is a
404 not-found, and no row of the list result matches the id - the row is
removed outright, with no tombstone left in the table. -/
theorem delete_then_gone (db : Db) (idStr : String)
    (hex : ∃ r ∈ db.rows, rowMatches idStr r = true) :
    (deleteTaskById db idStr).2 =
      DeleteRes.ok "Tarea eliminada correctamente" ∧
    (deleteTaskById db idStr).2.status = 200 ∧
    (getTaskById (deleteTaskById db idStr).1 idStr).2 =
      GetRes.notFound "Tarea no encontrada" ∧
    (∀ r ∈ dbAll (deleteTaskById db idStr).1, rowMatches idStr r = false) := by
  have hpos : 0 < db.rows.countP (rowMatches idStr) :=
    List.countP_pos_iff.mpr hex
  have hne : (db.rows.countP (rowMatches idStr) == 0) = false := by
    rw [beq_eq_false_iff_ne]
    omega
  have hsnd : (deleteTaskById db idStr).2 =
      DeleteRes.ok "Tarea eliminada correctamente" := by
    simp [deleteTaskById, dbRunDelete, hne]
  have hfst : (deleteTaskById db idStr).1 =
      ⟨db.rows.filter (fun r => !rowMatches idStr r), db.seq⟩ := by
    simp only [deleteTaskById, dbRunDelete]
    split <;> rfl
  have hgone : ∀ r ∈ (deleteTaskById db idStr).1.rows,
      rowMatches idStr r = false := by
    rw [hfst]
    intro r hr
    simpa using (List.mem_filter.mp hr).2
  refine ⟨hsnd, by rw [hsnd]; rfl, ?_, hgone⟩
  have hg : dbGet (deleteTaskById db idStr).1 idStr = none :=
    List.find?_eq_none.mpr fun a ha => by simp [hgone a ha]
  simp [getTaskById, hg]

theorem delete_then_gone_witness :
    (∃ r ∈ (⟨[⟨1, SqlVal.text "a", SqlVal.null, SqlVal.int 0⟩], 1⟩ : Db).rows,
        rowMatches "1" r = true) ∧
    (deleteTaskById ⟨[⟨1, SqlVal.text "a", SqlVal.null, SqlVal.int 0⟩], 1⟩
        "1").2 = DeleteRes.ok "Tarea eliminada correctamente" :=
  ⟨by decide,
   (delete_then_gone ⟨[⟨1, SqlVal.text "a", SqlVal.null, SqlVal.int 0⟩], 1⟩
     "1" (by decide)).1⟩

/-- Claim C7: updating an existing task with `completed` set to the JS
boolean `true` (and a present title, so the UPDATE succeeds) echoes the
submitted fields, and re-reading the same id afterwards yields a task
whose stored `completed` is the SQLite true value 1 - the bound image of
`true` - and whose title is the submitted one. -/
theorem update_completed_true_then_read (db : Db) (idStr : String)
    (t : String) (d : JsVal)
    (hex : ∃ r ∈ db.rows, rowMatches idStr r = true) :
    (putTask db idStr ⟨JsVal.str t, d, JsVal.bool true⟩).2 =
      UpdateRes.ok ⟨idStr, JsVal.str t, d, JsVal.bool true⟩ ∧
    ∃ row,
      (getTaskById (putTask db idStr ⟨JsVal.str t, d, JsVal.bool true⟩).1
          idStr).2 = GetRes.ok row ∧
      row.completed = SqlVal.int 1 ∧ row.title = SqlVal.text t := by
  have hpos : 0 < db.rows.countP (rowMatches idStr) :=
    List.countP_pos_iff.mpr hex
  have hcp : db.rows.countP (rowMatches idStr) ≠ 0 := by omega
  refine ⟨putTask_snd_ok db idStr ⟨.str t, d, .bool true⟩ rfl hcp, ?_⟩
  have hfst : (putTask db idStr ⟨JsVal.str t, d, JsVal.bool true⟩).1.rows =
      db.rows.map (fun r => if rowMatches idStr r then
        setRow (SqlVal.text t) (bindVal d) (SqlVal.int 1) r else r) := by
    rw [putTask_fst, if_neg (by simp [bindVal, SqlVal.isNull])]
    rfl
  obtain ⟨r0, hr0, hm0⟩ := hex
  have hmem : (if rowMatches idStr r0 then
      setRow (SqlVal.text t) (bindVal d) (SqlVal.int 1) r0 else r0) ∈
      (putTask db idStr ⟨JsVal.str t, d, JsVal.bool true⟩).1.rows := by
    rw [hfst]
    exact List.mem_map_of_mem _ hr0
  have hmatch : rowMatches idStr (if rowMatches idStr r0 then
      setRow (SqlVal.text t) (bindVal d) (SqlVal.int 1) r0 else r0) = true := by
    rw [if_pos hm0, rowMatches_setRow]
    exact hm0
  cases hfind : (putTask db idStr ⟨JsVal.str t, d, JsVal.bool true⟩).1.rows.find?
      (rowMatches idStr) with
  | none =>
    exact absurd hmatch (by simpa using List.find?_eq_none.mp hfind _ hmem)
  | some row =>
    have hp : rowMatches idStr row = true := List.find?_some hfind
    have hrowmem : row ∈ (putTask db idStr ⟨JsVal.str t, d, JsVal.bool true⟩).1.rows :=
      List.mem_of_find?_eq_some hfind
    rw [hfst] at hrowmem
    have hfields := update_map_fields hrowmem hp
    refine ⟨row, ?_, hfields.2.2, hfields.1⟩
    simp [getTaskById, dbGet, hfind]

theorem update_completed_true_then_read_witness :
    (∃ r ∈ (⟨[⟨1, SqlVal.text "a", SqlVal.null, SqlVal.int 0⟩], 1⟩ : Db).rows,
        rowMatches "1" r = true) ∧
    (putTask ⟨[⟨1, SqlVal.text "a", SqlVal.null, SqlVal.int 0⟩], 1⟩ "1"
        ⟨JsVal.str "a", JsVal.undef, JsVal.bool true⟩).2 =
      UpdateRes.ok ⟨"1", JsVal.str "a", JsVal.undef, JsVal.bool true⟩ :=
  ⟨by decide,
   (update_completed_true_then_read
     ⟨[⟨1, SqlVal.text "a", SqlVal.null, SqlVal.int 0⟩], 1⟩ "1" "a"
     JsVal.undef (by decide)).1⟩

/-! ### Operation traces and the id-assignment invariant -/

/-- Well-formedness of a store: every persisted id is at most the
AUTOINCREMENT sequence counter (each id was assigned as a past value of
the counter), and persisted ids are pairwise distinct (INTEGER PRIMARY
KEY). The empty store satisfies it, and every handler preserves it. -/
def Db.WF (db : Db) : Prop :=
  (∀ r ∈ db.rows, r.id ≤ db.seq) ∧
  db.rows.Pairwise (fun a b => a.id ≠ b.id)

/-- One client request, as far as the store is concerned. -/
inductive Op where
  | create (body : CreateBody)
  | update (idStr : String) (body : UpdateBody)
  | del (idStr : String)
  | read (idStr : String)
  | list

/-- The store after one request is handled. -/
def step (db : Db) : Op → Db
  | .create b => (postTasks db b).1
  | .update i b => (putTask db i b).1
  | .del i => (deleteTaskById db i).1
  | .read i => (getTaskById db i).1
  | .list => (getTasks db).1

/-- The store after a sequence of requests is handled in order. -/
def run (db : Db) (ops : List Op) : Db := ops.foldl step db

theorem updF_id (i : String) (t d c : SqlVal) (x : Row) :
    (if rowMatches i x then setRow t d c x else x).id = x.id := by
  by_cases h : rowMatches i x = true
  · rw [if_pos h]
    rfl
  · rw [if_neg h]

theorem postTasks_fst (db : Db) (b : CreateBody) :
    (postTasks db b).1 = db ∨
    (postTasks db b).1 =
      ⟨db.rows ++ [⟨db.seq + 1, bindVal b.title, bindVal b.description,
        SqlVal.int 0⟩], db.seq + 1⟩ := by
  unfold postTasks dbRunInsert
  cases h : (bindVal b.title).isNull
  · right
    simp [h]
    rfl
  · left
    simp [h]

theorem step_seq_le (db : Db) (op : Op) : db.seq ≤ (step db op).seq := by
  cases op with
  | create b =>
    rcases postTasks_fst db b with h | h <;> simp [step, h]
  | update i b =>
    show db.seq ≤ (putTask db i b).1.seq
    rw [putTask_fst]
    split <;> simp
  | del i =>
    simp only [step, deleteTaskById, dbRunDelete]
    split <;> simp
  | read i => exact le_refl _
  | list => exact le_refl _

theorem run_seq_le (db : Db) (ops : List Op) : db.seq ≤ (run db ops).seq := by
  induction ops generalizing db with
  | nil => exact le_refl _
  | cons op ops ih => exact le_trans (step_seq_le db op) (ih (step db op))

theorem step_WF (db : Db) (op : Op) (h : db.WF) : (step db op).WF := by
  obtain ⟨hle, hpw⟩ := h
  cases op with
  | create b =>
    rcases postTasks_fst db b with heq | heq <;>
      (show ((postTasks db b).1).WF; rw [heq])
    · exact ⟨hle, hpw⟩
    · constructor
      · intro r hr
        rcases List.mem_append.mp hr with h1 | h1
        · exact le_trans (hle r h1) (Nat.le_succ _)
        · rw [List.mem_singleton] at h1
          rw [h1]
      · rw [List.pairwise_append]
        refine ⟨hpw, List.pairwise_singleton _ _, ?_⟩
        intro a ha x hx
        rw [List.mem_singleton] at hx
        rw [hx]
        have := hle a ha
        simp
        omega
  | update i b =>
    show ((putTask db i b).1).WF
    rw [putTask_fst]
    split
    · exact ⟨hle, hpw⟩
    · constructor
      · intro r hr
        rcases List.mem_map.mp hr with ⟨x, hx, rfl⟩
        rw [updF_id]
        exact hle x hx
      · refine List.Pairwise.map _ ?_ hpw
        intro a x hax
        rw [updF_id, updF_id]
        exact hax
  | del i =>
    simp only [step, deleteTaskById, dbRunDelete]
    split <;>
      exact ⟨fun r hr => hle r (List.mem_of_mem_filter hr),
        List.Pairwise.sublist (List.filter_sublist _) hpw⟩
  | read i => exact ⟨hle, hpw⟩
  | list => exact ⟨hle, hpw⟩

theorem run_WF (db : Db) (ops : List Op) (h : db.WF) : (run db ops).WF := by
  induction ops generalizing db with
  | nil => exact h
  | cons op ops ih => exact ih (step db op) (step_WF db op h)

/-- Claim C8: id assignment along any sequence of requests. On a
well-formed store (a condition the empty store meets and, by the first
conjunct, every reachable store preserves): (1) well-formedness - in
particular pairwise-distinct ids - is preserved by every request sequence
and the sequence counter never decreases; (2) the id the next successful
create will assign, `seq + 1`, is held by no persisted task, so an id is
assigned to at most one task, is strictly larger than every id assigned
before (successive creates yield strictly increasing ids), and - the
counter never decreasing, not even on delete - an id is never reassigned
after its task is deleted; (3) a successful create assigns exactly
`seq + 1` and advances the counter to it; (4) an update never changes any
task's id. -/
theorem id_assignment_invariants (db : Db) (h : db.WF) :
    (∀ ops, (run db ops).WF ∧ db.seq ≤ (run db ops).seq) ∧
    ((db.seq + 1) ∉ db.rows.map Row.id) ∧
    (∀ b : CreateBody, (bindVal b.title).isNull = false →
      (postTasks db b).2 =
        CreateRes.ok ⟨db.seq + 1, b.title, b.description, false⟩ ∧
      (postTasks db b).1.seq = db.seq + 1) ∧
    (∀ (i : String) (b : UpdateBody),
      (putTask db i b).1.rows.map Row.id = db.rows.map Row.id) := by
  refine ⟨fun ops => ⟨run_WF db ops h, run_seq_le db ops⟩, ?_, ?_, ?_⟩
  · intro hmem
    rcases List.mem_map.mp hmem with ⟨r, hr, hid⟩
    have := h.1 r hr
    omega
  · intro b ht
    constructor
    · unfold postTasks dbRunInsert
      simp [ht]
    · unfold postTasks dbRunInsert
      simp [ht]
  · intro i b
    rw [putTask_fst]
    split
    · rfl
    · exact update_map_ids _ _ _ _ _

theorem id_assignment_invariants_witness :
    (⟨[], 0⟩ : Db).WF ∧
    ((run ⟨[], 0⟩ [Op.create ⟨JsVal.str "a", JsVal.undef, JsVal.undef⟩]).WF ∧
      (⟨[], 0⟩ : Db).seq ≤
        (run ⟨[], 0⟩ [Op.create ⟨JsVal.str "a", JsVal.undef, JsVal.undef⟩]).seq) :=
  ⟨⟨by simp, List.Pairwise.nil⟩,
   (id_assignment_invariants ⟨[], 0⟩ ⟨by simp, List.Pairwise.nil⟩).1
     [Op.create ⟨JsVal.str "a", JsVal.undef, JsVal.undef⟩]⟩
